import Mathlib

/-!
Shallow embedding of `src/app.py` (Govigyan-gemini): a Flask service that
uploads document files, extracts ledger fields from the Gemini response text,
inserts rows into a PostgreSQL table, and publishes/reads Google-Sheets data.

Modelling conventions:
- Python strings are `List Char`; response texts are the `.data` of literals.
- Python numbers arising from JSON are exact rationals (`ℚ`); floats are
  modelled as exact decimal values (no IEEE rounding), built with `mkRat`.
- A raised Python exception is `none` in an `Option` result: each route's
  `try/except` turns it into a 500 response.
- External collaborators (Gemini, PostgreSQL, Google Sheets) are oracles
  passed to the handler functions: per-file response texts, an optional
  failing statement index, a publish-success flag.
-/

namespace Govigyan

/-- A decoded JSON value, the model of what Python's `json.loads` returns
(object keys and strings are `List Char`; numbers are exact rationals).
Nonfinite literals (`NaN`, `Infinity`) are not modelled. -/
inductive JValue where
  | null
  | bool (b : Bool)
  | num (q : ℚ)
  | str (s : List Char)
  | arr (elems : List JValue)
  | obj (fields : List (List Char × JValue))
  deriving Repr

/-- JSON whitespace characters (RFC 8259). -/
def isJsonWS (c : Char) : Bool :=
  c = ' ' || c = '\t' || c = '\n' || c = '\r'

def skipWS (cs : List Char) : List Char :=
  cs.dropWhile isJsonWS

def isDigitChar (c : Char) : Bool :=
  '0' ≤ c && c ≤ '9'

def digitVal (c : Char) : ℕ :=
  c.toNat - 48

/-- Numeric value of a digit string, most significant first. -/
def digitsToNat (ds : List Char) : ℕ :=
  ds.foldl (fun a c => 10 * a + digitVal c) 0

def hexVal (c : Char) : Option ℕ :=
  if '0' ≤ c && c ≤ '9' then some (c.toNat - 48)
  else if 'a' ≤ c && c ≤ 'f' then some (c.toNat - 87)
  else if 'A' ≤ c && c ≤ 'F' then some (c.toNat - 55)
  else none

/-- Single-character JSON string escapes. -/
def escSimple (c : Char) : Option Char :=
  if c = '"' then some '"'
  else if c = '\\' then some '\\'
  else if c = '/' then some '/'
  else if c = 'b' then some (Char.ofNat 8)
  else if c = 'f' then some (Char.ofNat 12)
  else if c = 'n' then some '\n'
  else if c = 'r' then some '\r'
  else if c = 't' then some '\t'
  else none

/-- Body of a JSON string after the opening quote: returns the decoded
characters and the rest of the input after the closing quote.  `\uXXXX`
decodes to the single code unit (surrogate pairs are not recombined);
unescaped control characters are rejected, as in strict `json.loads`. -/
def parseStringBody : List Char → Option (List Char × List Char)
  | [] => none
  | c :: cs =>
    if c = '"' then some ([], cs)
    else if c = '\\' then
      match cs with
      | [] => none
      | e :: cs1 =>
        if e = 'u' then
          match cs1 with
          | h1 :: h2 :: h3 :: h4 :: cs2 =>
            match hexVal h1, hexVal h2, hexVal h3, hexVal h4 with
            | some a, some b, some c2, some d =>
              match parseStringBody cs2 with
              | some (s, rest) =>
                some (Char.ofNat (4096 * a + 256 * b + 16 * c2 + d) :: s, rest)
              | none => none
            | _, _, _, _ => none
          | _ => none
        else
          match escSimple e with
          | some d =>
            match parseStringBody cs1 with
            | some (s, rest) => some (d :: s, rest)
            | none => none
          | none => none
    else if c.toNat < 32 then none
    else
      match parseStringBody cs with
      | some (s, rest) => some (c :: s, rest)
      | none => none

/-- Optional exponent part of a JSON number (`e`/`E`, optional sign, digits). -/
def parseExp : List Char → Option (ℤ × List Char)
  | [] => some (0, [])
  | c :: rest =>
    if c = 'e' || c = 'E' then
      let (eneg, r1) : Bool × List Char :=
        match rest with
        | '+' :: r => (false, r)
        | '-' :: r => (true, r)
        | _ => (false, rest)
      let ds := r1.takeWhile isDigitChar
      if ds.isEmpty then none
      else
        some (if eneg then -(digitsToNat ds : ℤ) else (digitsToNat ds : ℤ),
              r1.dropWhile isDigitChar)
    else some (0, c :: rest)

/-- Exact value of a decimal number `[-] intDs . fracDs e exp`. -/
def ratOfParts (neg : Bool) (intDs fracDs : List Char) (exp : ℤ) : ℚ :=
  let m0 : ℤ := (digitsToNat intDs * 10 ^ fracDs.length + digitsToNat fracDs : ℕ)
  let m : ℤ := if neg then -m0 else m0
  if 0 ≤ exp then mkRat (m * 10 ^ exp.toNat) (10 ^ fracDs.length)
  else mkRat m (10 ^ (fracDs.length + (-exp).toNat))

/-- A JSON number: optional `-`, an integer part with no leading zeros,
optional fraction, optional exponent. -/
def parseNumber (cs : List Char) : Option (ℚ × List Char) :=
  let (neg, cs1) : Bool × List Char :=
    match cs with
    | '-' :: rest => (true, rest)
    | _ => (false, cs)
  let intDs := cs1.takeWhile isDigitChar
  let cs2 := cs1.dropWhile isDigitChar
  match intDs with
  | [] => none
  | '0' :: _ :: _ => none
  | _ =>
    match cs2 with
    | '.' :: rest =>
      let fracDs := rest.takeWhile isDigitChar
      if fracDs.isEmpty then none
      else
        match parseExp (rest.dropWhile isDigitChar) with
        | some (e, r) => some (ratOfParts neg intDs fracDs e, r)
        | none => none
    | _ =>
      match parseExp cs2 with
      | some (e, r) => some (ratOfParts neg intDs [] e, r)
      | none => none

mutual

/-- Recursive-descent JSON value parse; the fuel bounds nesting depth and
`jsonLoads` supplies more fuel than the input length, so fuel exhaustion
never fires on a real parse. -/
def parseValue : ℕ → List Char → Option (JValue × List Char)
  | 0, _ => none
  | fuel + 1, cs =>
    match skipWS cs with
    | [] => none
    | c :: rest =>
      if c = '\x7b' then
        match skipWS rest with
        | '\x7d' :: r => some (JValue.obj [], r)
        | r =>
          match parseMembers fuel r with
          | some (fs, r1) => some (JValue.obj fs, r1)
          | none => none
      else if c = '[' then
        match skipWS rest with
        | ']' :: r => some (JValue.arr [], r)
        | r =>
          match parseElements fuel r with
          | some (es, r1) => some (JValue.arr es, r1)
          | none => none
      else if c = '"' then
        match parseStringBody rest with
        | some (s, r) => some (JValue.str s, r)
        | none => none
      else if c = 't' then
        match rest with
        | 'r' :: 'u' :: 'e' :: r => some (JValue.bool true, r)
        | _ => none
      else if c = 'f' then
        match rest with
        | 'a' :: 'l' :: 's' :: 'e' :: r => some (JValue.bool false, r)
        | _ => none
      else if c = 'n' then
        match rest with
        | 'u' :: 'l' :: 'l' :: r => some (JValue.null, r)
        | _ => none
      else if c = '-' || isDigitChar c then
        match parseNumber (c :: rest) with
        | some (q, r) => some (JValue.num q, r)
        | none => none
      else none
  termination_by structural fuel => fuel

/-- Members of a JSON object, positioned just after `{` or `,`. -/
def parseMembers : ℕ → List Char → Option (List (List Char × JValue) × List Char)
  | 0, _ => none
  | fuel + 1, cs =>
    match skipWS cs with
    | '"' :: rest =>
      match parseStringBody rest with
      | none => none
      | some (key, r1) =>
        match skipWS r1 with
        | ':' :: r2 =>
          match parseValue fuel r2 with
          | none => none
          | some (v, r3) =>
            match skipWS r3 with
            | ',' :: r4 =>
              match parseMembers fuel r4 with
              | none => none
              | some (fs, r5) => some ((key, v) :: fs, r5)
            | '\x7d' :: r4 => some ([(key, v)], r4)
            | _ => none
        | _ => none
    | _ => none
  termination_by structural fuel => fuel

/-- Elements of a JSON array, positioned just after `[` or `,`. -/
def parseElements : ℕ → List Char → Option (List JValue × List Char)
  | 0, _ => none
  | fuel + 1, cs =>
    match parseValue fuel cs with
    | none => none
    | some (v, r1) =>
      match skipWS r1 with
      | ',' :: r2 =>
        match parseElements fuel r2 with
        | none => none
        | some (es, r3) => some (v :: es, r3)
      | ']' :: r2 => some ([v], r2)
      | _ => none
  termination_by structural fuel => fuel

end

/-- Model of Python `json.loads text`: `none` is a raised
`json.JSONDecodeError`.  The whole input, minus trailing whitespace, must be
consumed. -/
def jsonLoads (text : List Char) : Option JValue :=
  match parseValue (text.length + 1) text with
  | some (v, rest) => if (skipWS rest).isEmpty then some v else none
  | none => none

/-- Python `d.get(key, dflt)` on a dict decoded from JSON.  The scan carries
the latest match so that, as in `json.loads`, a duplicated key keeps its last
occurrence. -/
def dictGet : List (List Char × JValue) → List Char → JValue → JValue
  | [], _, dflt => dflt
  | kv :: rest, key, dflt => dictGet rest key (if kv.1 = key then kv.2 else dflt)

/-- Whitespace stripped by Python's `int()` / `float()` string conversion. -/
def isPySpace (c : Char) : Bool :=
  c = ' ' || c = '\t' || c = '\n' || c = '\r' || c = '\x0b' || c = '\x0c'

def stripPySpace (s : List Char) : List Char :=
  ((s.dropWhile isPySpace).reverse.dropWhile isPySpace).reverse

/-- Python `int(s)` for a string: optional surrounding whitespace, optional
sign, decimal digits (digit-group underscores are not modelled).  `none` is a
raised `ValueError`. -/
def pyIntOfString (s : List Char) : Option ℤ :=
  let t := stripPySpace s
  let (neg, ds) : Bool × List Char :=
    match t with
    | '-' :: r => (true, r)
    | '+' :: r => (false, r)
    | _ => (false, t)
  if ds.isEmpty || !(ds.all isDigitChar) then none
  else some (if neg then -(digitsToNat ds : ℤ) else (digitsToNat ds : ℤ))

/-- Python `float(s)` for a string: optional whitespace and sign, then
digits with an optional point and exponent (`inf`/`nan` and underscores are
not modelled; the value is exact, with no IEEE rounding). -/
def pyFloatOfString (s : List Char) : Option ℚ :=
  let t := stripPySpace s
  let (neg, r0) : Bool × List Char :=
    match t with
    | '-' :: r => (true, r)
    | '+' :: r => (false, r)
    | _ => (false, t)
  let intDs := r0.takeWhile isDigitChar
  let r1 := r0.dropWhile isDigitChar
  let (fracDs, r2) : List Char × List Char :=
    match r1 with
    | '.' :: rest => (rest.takeWhile isDigitChar, rest.dropWhile isDigitChar)
    | _ => ([], r1)
  if intDs.isEmpty && fracDs.isEmpty then none
  else
    match parseExp r2 with
    | some (e, r3) => if r3.isEmpty then some (ratOfParts neg intDs fracDs e) else none
    | none => none

/-- Python `int(x)` for a value decoded from JSON (app.py lines 167 and 171):
a float truncates toward zero, a bool is 0/1, a numeric string is parsed,
anything else raises (`none`). -/
def pyInt : JValue → Option ℤ
  | .num q => some (q.num.tdiv q.den)
  | .bool b => some (if b then 1 else 0)
  | .str s => pyIntOfString s
  | _ => none

/-- Python `float(x)` for a value decoded from JSON (app.py lines 168 and
172). -/
def pyFloat : JValue → Option ℚ
  | .num q => some q
  | .bool b => some (if b then 1 else 0)
  | .str s => pyFloatOfString s
  | _ => none

/-- The per-file output of the Document Extractor: the four fields read out
of `gemini_data` when the flash entry is built (app.py lines 165-172). -/
structure ExtractedFields where
  description : JValue
  billNo : JValue
  quantity : ℤ
  amount : ℚ
  deriving Repr

/-- True when the response text begins with `{` (Python
`gemini_result.startswith` at app.py line 160). -/
def startsWithBrace : List Char → Bool
  | c :: _ => c = '\x7b'
  | [] => false

/-- app.py lines 160-162: `gemini_data` is `json.loads(gemini_result)` when
the text starts with `{`, and otherwise the literal fallback dict.  `none`
models a raised exception: `json.loads` failing on a malformed `{`-led text,
or `.get` failing because the decoded value is not a dict. -/
def geminiData (text : List Char) : Option (List (List Char × JValue)) :=
  if startsWithBrace text then
    match jsonLoads text with
    | some (JValue.obj fields) => some fields
    | _ => none
  else
    some [("description".data, JValue.str text),
          ("bill_no".data, JValue.str "N/A".data),
          ("quantity".data, JValue.num 0),
          ("amount".data, JValue.num 0)]

/-- The four field reads (with their defaults and `int()`/`float()`
coercions) that app.py lines 165-172 perform on `gemini_data`. -/
def extractFromFields (d : List (List Char × JValue)) : Option ExtractedFields :=
  match pyInt (dictGet d "quantity".data (JValue.num 0)),
        pyFloat (dictGet d "amount".data (JValue.num 0)) with
  | some q, some a =>
    some { description := dictGet d "description".data (JValue.str "Processed File".data),
           billNo := dictGet d "bill_no".data (JValue.str "N/A".data),
           quantity := q, amount := a }
  | _, _ => none

/-- `extract`: the Document Extractor's parsing of a present backend response
text (app.py lines 160-172).  `none` models an exception raised while
parsing or coercing, which the route's `except` turns into a 500. -/
def extract (text : List Char) : Option ExtractedFields :=
  match geminiData text with
  | none => none
  | some d => extractFromFields d

/-- The structured backend text of the spec's extractor example
(`'{"description":"Pen","bill_no":"B1","quantity":5,"amount":12.5}'`). -/
def jsonPenExample : List Char :=
  "\x7b\"description\":\"Pen\",\"bill_no\":\"B1\",\"quantity\":5,\"amount\":12.5\x7d".data

/-- One ledger row as built at app.py lines 97-107 / 163-173 (`particulars`
and `voucherBillNo` stay `JValue` because the Python dict stores whatever
`.get` returned, string or not). -/
structure LedgerEntry where
  date : List Char
  particulars : JValue
  voucherBillNo : JValue
  receiptsQuantity : ℤ
  receiptsAmount : ℚ
  issuedQuantity : ℤ
  issuedAmount : ℚ
  balanceQuantity : ℤ
  balanceAmount : ℚ
  deriving Repr

/-- app.py lines 163-173: the `/upload-flash` entry dict built from
`gemini_data` for one file; `today` is `datetime.now().strftime('%Y-%m-%d')`.
`int(...)` and `float(...)` are each evaluated twice in the source with the
same argument, so the receipts and balance columns get the same value. -/
def buildEntryFlash (today text : List Char) : Option LedgerEntry :=
  match extract text with
  | none => none
  | some f =>
    some { date := today, particulars := f.description,
           voucherBillNo := f.billNo,
           receiptsQuantity := f.quantity, receiptsAmount := f.amount,
           issuedQuantity := 0, issuedAmount := 0,
           balanceQuantity := f.quantity, balanceAmount := f.amount }

/-- app.py lines 96-107: the `/upload` entry dict; `gemini_result = {}` in
this variant, so every `.get` yields its default. -/
def buildEntryBaseline (today : List Char) : LedgerEntry :=
  { date := today, particulars := JValue.str "Processed File".data,
    voucherBillNo := JValue.str "N/A".data,
    receiptsQuantity := 0, receiptsAmount := 0,
    issuedQuantity := 0, issuedAmount := 0,
    balanceQuantity := 0, balanceAmount := 0 }

/-- A committed row of `table_name`, with its store-assigned `Entry_ID`. -/
structure Row where
  entryId : ℤ
  entry : LedgerEntry
  deriving Repr

/-- The committed contents of `table_name`.  `nextId` models the
auto-incrementing key that `INSERT ... RETURNING Entry_ID` draws from. -/
structure Store where
  nextId : ℤ
  rows : List Row
  deriving Repr

/-- One `INSERT ... RETURNING Entry_ID` (app.py lines 113-124 / 180-191). -/
def Store.insert (st : Store) (e : LedgerEntry) : Store :=
  { nextId := st.nextId + 1,
    rows := st.rows ++ [{ entryId := st.nextId, entry := e }] }

/-- The insert loop followed by `conn.commit()` (app.py lines 112-125 and
179-192).  `failAt = some k` with `k` in range: the `k`-th execute raises, the
commit is never reached, and the open transaction is discarded, so the
committed store is unchanged (`none`). -/
def insertAll (st : Store) (entries : List LedgerEntry) (failAt : Option ℕ) :
    Option Store :=
  match failAt with
  | some k => if k < entries.length then none else some (entries.foldl Store.insert st)
  | none => some (entries.foldl Store.insert st)

/-- A JSON response body: either a fully modelled `jsonify(...)` payload, or
an error payload whose text interpolates `str(e)` of a raised exception
(the exception string itself is not modelled). -/
inductive Body where
  | json (v : JValue)
  | exceptionText
  deriving Repr

structure HttpResponse where
  status : ℕ
  body : Body
  deriving Repr

def errBody (msg : List Char) : Body :=
  Body.json (JValue.obj [("error".data, JValue.str msg)])

def msgBody (msg : List Char) : Body :=
  Body.json (JValue.obj [("message".data, JValue.str msg)])

/-- app.py lines 81-133, route `/upload`.  `files?` is `none` when `'files'
not in request.files`; otherwise the list of filenames (file contents are
irrelevant in this variant, whose `gemini_result` is `{}`).  `insertFailAt`
is the DB oracle of `insertAll`.  Result: response and committed store. -/
def uploadFiles (today : List Char) (insertFailAt : Option ℕ) (st : Store)
    (files? : Option (List (List Char))) : HttpResponse × Store :=
  match files? with
  | none => ({ status := 400, body := errBody "No files uploaded".data }, st)
  | some files =>
    if files.isEmpty || files.all (fun f => f.isEmpty) then
      ({ status := 400, body := errBody "No valid files uploaded".data }, st)
    else
      match insertAll st (files.map fun _ => buildEntryBaseline today) insertFailAt with
      | none => ({ status := 500, body := Body.exceptionText }, st)
      | some st1 => ({ status := 200, body := msgBody "Files processed".data }, st1)

/-- app.py lines 150-174: the per-file loop of `/upload-flash` that calls
Gemini and builds every entry before any DB work.  `gemini i` is the backend
response text for file `i`, `none` being a raised backend error.  The whole
result is `none` as soon as one file's call or parse/coercion raises. -/
def buildEntriesFlash (today : List Char) (gemini : ℕ → Option (List Char)) :
    ℕ → List (List Char) → Option (List LedgerEntry)
  | _, [] => some []
  | i, _ :: fs =>
    match gemini i with
    | none => none
    | some text =>
      match buildEntryFlash today text with
      | none => none
      | some e =>
        match buildEntriesFlash today gemini (i + 1) fs with
        | none => none
        | some es => some (e :: es)

/-- app.py lines 136-220, route `/upload-flash`: validate, extract all
entries, insert them and commit, then create and fill the new spreadsheet
(`publishOk = false` models any Sheets-API failure, which raises after the
commit).  The success body also carries `sheet_url`, whose value is not
modelled. -/
def uploadFilesFlash (today : List Char) (gemini : ℕ → Option (List Char))
    (insertFailAt : Option ℕ) (publishOk : Bool) (st : Store)
    (files? : Option (List (List Char))) : HttpResponse × Store :=
  match files? with
  | none => ({ status := 400, body := errBody "No files uploaded".data }, st)
  | some files =>
    if files.isEmpty || files.all (fun f => f.isEmpty) then
      ({ status := 400, body := errBody "No valid files uploaded".data }, st)
    else
      match buildEntriesFlash today gemini 0 files with
      | none => ({ status := 500, body := Body.exceptionText }, st)
      | some entries =>
        match insertAll st entries insertFailAt with
        | none => ({ status := 500, body := Body.exceptionText }, st)
        | some st1 =>
          if publishOk then
            ({ status := 200,
               body := msgBody "Files processed and new spreadsheet created".data }, st1)
          else ({ status := 500, body := Body.exceptionText }, st1)

/-- The `ORDER BY Entry_ID` comparison of app.py line 227. -/
def rowLE (a b : Row) : Prop :=
  a.entryId ≤ b.entryId

instance : DecidableRel rowLE := fun x y => inferInstanceAs (Decidable (x.entryId ≤ y.entryId))

instance : IsTotal Row rowLE := ⟨fun x y => le_total x.entryId y.entryId⟩

instance : IsTrans Row rowLE := ⟨fun _ _ _ => le_trans⟩

/-- `SELECT * FROM table_name ORDER BY Entry_ID` returns the committed rows
sorted by id, whatever their physical order. -/
def sortRows (rows : List Row) : List Row :=
  List.insertionSort rowLE rows

/-- app.py lines 222-235, route `/results`.  `dbOk = false` models a raised
connection/query error; on success the body is the ordered row list (`some`),
on error `none` stands for the `{'error': str(e)}` payload. -/
def getResults (dbOk : Bool) (st : Store) : ℕ × Option (List Row) :=
  if dbOk then (200, some (sortRows st.rows)) else (500, none)

/-- One record of the `/update` JSON body (app.py lines 252-256): all nine
columns plus the addressing `Entry_ID`. -/
structure UpdateRecord where
  entryId : ℤ
  date : List Char
  particulars : JValue
  voucherBillNo : JValue
  receiptsQuantity : ℤ
  receiptsAmount : ℚ
  issuedQuantity : ℤ
  issuedAmount : ℚ
  balanceQuantity : ℤ
  balanceAmount : ℚ

/-- One `UPDATE ... WHERE Entry_ID = %s` (app.py lines 244-257): every row
whose id matches is overwritten; matching nothing changes nothing and raises
nothing. -/
def applyUpdate (rows : List Row) (u : UpdateRecord) : List Row :=
  rows.map fun r =>
    if r.entryId = u.entryId then
      { entryId := r.entryId,
        entry := { date := u.date, particulars := u.particulars,
                   voucherBillNo := u.voucherBillNo,
                   receiptsQuantity := u.receiptsQuantity,
                   receiptsAmount := u.receiptsAmount,
                   issuedQuantity := u.issuedQuantity,
                   issuedAmount := u.issuedAmount,
                   balanceQuantity := u.balanceQuantity,
                   balanceAmount := u.balanceAmount } }
    else r

/-- app.py lines 237-265, route `/update`: execute every UPDATE in order,
then one `conn.commit()` after the loop.  `updates?` is `none` when the JSON
body cannot be iterated as records; `execFailAt = some k` with `k` in range
models the `k`-th execute raising — the commit is never reached and the
committed store is unchanged. -/
def updateData (execFailAt : Option ℕ) (st : Store)
    (updates? : Option (List UpdateRecord)) : HttpResponse × Store :=
  match updates? with
  | none => ({ status := 500, body := Body.exceptionText }, st)
  | some updates =>
    match execFailAt with
    | some k =>
      if k < updates.length then ({ status := 500, body := Body.exceptionText }, st)
      else ({ status := 200, body := msgBody "Data updated".data },
            { st with rows := updates.foldl applyUpdate st.rows })
    | none =>
      ({ status := 200, body := msgBody "Data updated".data },
       { st with rows := updates.foldl applyUpdate st.rows })

/-- app.py lines 63-79, route `/get-sheet-data`.  `spreadsheetId?` is the
query parameter; Python's `if not spreadsheet_id` also catches the empty
string.  `backend` is the Sheets oracle for `values().get(...).execute()`:
`none` a raised backend error, `some v?` a result dict where `v?` is its
`'values'` entry (`result.get('values', [])` defaults to `[]`).  The `range`
query parameter only feeds that call, so the oracle absorbs it.  The Bool
reports whether the backend was called. -/
def getSheetData (backend : Option (Option JValue))
    (spreadsheetId? : Option (List Char)) : (HttpResponse × Bool) :=
  match spreadsheetId? with
  | none => ({ status := 400, body := errBody "Missing spreadsheet_id".data }, false)
  | some sid =>
    if sid.isEmpty then
      ({ status := 400, body := errBody "Missing spreadsheet_id".data }, false)
    else
      match backend with
      | none => ({ status := 500, body := Body.exceptionText }, true)
      | some v? =>
        ({ status := 200,
           body := Body.json (JValue.obj
             [("values".data, v?.getD (JValue.arr []))]) }, true)

/-! ## Helper lemmas -/

lemma extract_of_not_brace (t : List Char) (h : startsWithBrace t = false) :
    extract t = some { description := JValue.str t, billNo := JValue.str "N/A".data,
                       quantity := 0, amount := 0 } := by
  unfold extract geminiData
  rw [h]
  rfl

lemma extract_of_brace (t : List Char) (fields : List (List Char × JValue))
    (h1 : startsWithBrace t = true) (h2 : jsonLoads t = some (JValue.obj fields)) :
    extract t = extractFromFields fields := by
  unfold extract geminiData
  rw [h1, h2]
  rfl

lemma extract_of_brace_parse_error (t : List Char)
    (h1 : startsWithBrace t = true) (h2 : jsonLoads t = none) :
    extract t = none := by
  unfold extract geminiData
  rw [h1, h2]
  rfl

/-! ## Claims -/

/-- C1: For every backend response text, the extractor's parsing in the
upload-and-publish flow is: if the text begins with a brace, parse it as a
JSON object and take the fields `description`, `bill_no`, `quantity`,
`amount` — a missing field takes the default `'Processed File'`, `'N/A'`,
`0`, `0.0` respectively (the reads and defaults appear here as the
`dictGet` defaults, with the source's `int`/`float` coercions); otherwise
the whole text becomes the description and the other three fields take the
defaults `'N/A'`, `0`, `0.0`.  In particular `"some prose"` yields the
free-form fields, and the Pen example yields exactly the structured values
(`mkRat 25 2` is `12.5`). -/
theorem extract_parsing_policy :
    (∀ t, startsWithBrace t = false →
      extract t = some { description := JValue.str t, billNo := JValue.str "N/A".data,
                         quantity := 0, amount := 0 }) ∧
    (∀ t fields q a, startsWithBrace t = true →
      jsonLoads t = some (JValue.obj fields) →
      pyInt (dictGet fields "quantity".data (JValue.num 0)) = some q →
      pyFloat (dictGet fields "amount".data (JValue.num 0)) = some a →
      extract t = some
        { description := dictGet fields "description".data (JValue.str "Processed File".data),
          billNo := dictGet fields "bill_no".data (JValue.str "N/A".data),
          quantity := q, amount := a }) ∧
    extract "some prose".data = some
      { description := JValue.str "some prose".data, billNo := JValue.str "N/A".data,
        quantity := 0, amount := 0 } ∧
    extract jsonPenExample = some
      { description := JValue.str "Pen".data, billNo := JValue.str "B1".data,
        quantity := 5, amount := mkRat 25 2 } := by
  refine ⟨fun t h => extract_of_not_brace t h, fun t fields q a h1 h2 hq ha => ?_, rfl, rfl⟩
  rw [extract_of_brace t fields h1 h2]
  unfold extractFromFields
  rw [hq, ha]

/-- Witness for `extract_parsing_policy`: the free-form branch at `"hello"`
and the JSON branch at a one-field object. -/
theorem extract_parsing_policy_witness :
    extract "hello".data = some
      { description := JValue.str "hello".data, billNo := JValue.str "N/A".data,
        quantity := 0, amount := 0 } ∧
    extract "\x7b\"quantity\":3\x7d".data = some
      { description := JValue.str "Processed File".data, billNo := JValue.str "N/A".data,
        quantity := 3, amount := 0 } :=
  ⟨extract_parsing_policy.1 "hello".data rfl,
   extract_parsing_policy.2.1 "\x7b\"quantity\":3\x7d".data
     [("quantity".data, JValue.num 3)] 3 0 rfl rfl rfl rfl⟩

/-- C2 counterexample: the text `"{"` is present and begins with a brace but
is not valid JSON, and extraction raises (`none`) instead of succeeding via
the fallback — the fallback does not absorb malformed `{`-led responses. -/
theorem extract_malformed_counterexample :
    startsWithBrace "\x7b".data = true ∧ extract "\x7b".data = none :=
  ⟨rfl, rfl⟩

/-- C2 amended: for every present backend text that does NOT begin with a
brace, extraction never raises — the fallback absorbs it; but a present text
that begins with a brace and fails to parse as JSON makes the extraction
raise (`json.loads` raises, caught only by the route's generic 500 handler),
rather than being absorbed by the fallback. -/
theorem extract_fallback_scope :
    (∀ t, startsWithBrace t = false →
      extract t = some { description := JValue.str t, billNo := JValue.str "N/A".data,
                         quantity := 0, amount := 0 }) ∧
    (∀ t, startsWithBrace t = true → jsonLoads t = none → extract t = none) := by
  exact ⟨fun t h => extract_of_not_brace t h,
         fun t h1 h2 => extract_of_brace_parse_error t h1 h2⟩

/-- Witness for `extract_fallback_scope`: the fallback at `"x"`, the raise
at `"{bad"`. -/
theorem extract_fallback_scope_witness :
    extract "x".data = some
      { description := JValue.str "x".data, billNo := JValue.str "N/A".data,
        quantity := 0, amount := 0 } ∧
    extract "\x7bbad".data = none :=
  ⟨extract_fallback_scope.1 "x".data rfl,
   extract_fallback_scope.2 "\x7bbad".data rfl rfl⟩

/-- C3: every ledger entry built at creation by either upload endpoint has
`balanceQuantity = receiptsQuantity`, `balanceAmount = receiptsAmount`,
`issuedQuantity = 0` and `issuedAmount = 0`. -/
theorem entry_creation_invariant :
    (∀ today text e, buildEntryFlash today text = some e →
      e.balanceQuantity = e.receiptsQuantity ∧ e.balanceAmount = e.receiptsAmount ∧
      e.issuedQuantity = 0 ∧ e.issuedAmount = 0) ∧
    (∀ today, (buildEntryBaseline today).balanceQuantity =
        (buildEntryBaseline today).receiptsQuantity ∧
      (buildEntryBaseline today).balanceAmount = (buildEntryBaseline today).receiptsAmount ∧
      (buildEntryBaseline today).issuedQuantity = 0 ∧
      (buildEntryBaseline today).issuedAmount = 0) := by
  constructor
  · intro today text e h
    unfold buildEntryFlash at h
    cases hx : extract text with
    | none => rw [hx] at h; cases h
    | some f =>
      rw [hx] at h
      cases h
      exact ⟨rfl, rfl, rfl, rfl⟩
  · intro today
    exact ⟨rfl, rfl, rfl, rfl⟩

/-- The entry `/upload-flash` builds for the response text `"x"`. -/
def sampleFlashEntry : LedgerEntry :=
  { date := "2024-01-01".data, particulars := JValue.str "x".data,
    voucherBillNo := JValue.str "N/A".data,
    receiptsQuantity := 0, receiptsAmount := 0,
    issuedQuantity := 0, issuedAmount := 0,
    balanceQuantity := 0, balanceAmount := 0 }

/-- Witness for `entry_creation_invariant` at a concrete flash entry. -/
theorem entry_creation_invariant_witness :
    sampleFlashEntry.balanceQuantity = sampleFlashEntry.receiptsQuantity ∧
    sampleFlashEntry.balanceAmount = sampleFlashEntry.receiptsAmount ∧
    sampleFlashEntry.issuedQuantity = 0 ∧ sampleFlashEntry.issuedAmount = 0 :=
  entry_creation_invariant.1 "2024-01-01".data "x".data sampleFlashEntry rfl

lemma foldl_insert_rows_append (entries : List LedgerEntry) :
    ∀ st : Store, ∃ extra : List Row,
      (entries.foldl Store.insert st).rows = st.rows ++ extra ∧
      extra.length = entries.length := by
  induction entries with
  | nil => intro st; exact ⟨[], by simp⟩
  | cons e es ih =>
    intro st
    obtain ⟨extra, hrows, hlen⟩ := ih (st.insert e)
    refine ⟨{ entryId := st.nextId, entry := e } :: extra, ?_, by simp [hlen]⟩
    rw [List.foldl_cons, hrows]
    simp [Store.insert]

lemma foldl_insert_length (entries : List LedgerEntry) (st : Store) :
    (entries.foldl Store.insert st).rows.length = st.rows.length + entries.length := by
  obtain ⟨extra, hrows, hlen⟩ := foldl_insert_rows_append entries st
  rw [hrows, List.length_append, hlen]

lemma buildEntriesFlash_length (today : List Char) (gemini : ℕ → Option (List Char)) :
    ∀ (files : List (List Char)) (i : ℕ) (entries : List LedgerEntry),
      buildEntriesFlash today gemini i files = some entries →
      entries.length = files.length := by
  intro files
  induction files with
  | nil => intro i entries h; cases h; rfl
  | cons f fs ih =>
    intro i entries h
    simp only [buildEntriesFlash] at h
    cases hg : gemini i with
    | none => simp [hg] at h
    | some text =>
      simp only [hg] at h
      cases hb : buildEntryFlash today text with
      | none => simp [hb] at h
      | some e =>
        simp only [hb] at h
        cases hr : buildEntriesFlash today gemini (i + 1) fs with
        | none => simp [hr] at h
        | some es =>
          simp only [hr] at h
          cases h
          simp [ih (i + 1) es hr]

/-- C4: for every upload request carrying at least one file with a non-empty
filename that succeeds (every backend step succeeds), both endpoints respond
200 and the number of rows added to the store equals the number of files in
the request. -/
theorem upload_row_count :
    (∀ today gemini st files entries,
      (files.isEmpty || files.all fun f => f.isEmpty) = false →
      buildEntriesFlash today gemini 0 files = some entries →
      (uploadFilesFlash today gemini none true st (some files)).1.status = 200 ∧
      (uploadFilesFlash today gemini none true st (some files)).2.rows.length =
        st.rows.length + files.length) ∧
    (∀ today st files,
      (files.isEmpty || files.all fun f => f.isEmpty) = false →
      (uploadFiles today none st (some files)).1.status = 200 ∧
      (uploadFiles today none st (some files)).2.rows.length =
        st.rows.length + files.length) := by
  constructor
  · intro today gemini st files entries hne hentries
    have hlen := buildEntriesFlash_length today gemini files 0 entries hentries
    simp [uploadFilesFlash, hne, hentries, insertAll, foldl_insert_length, hlen]
  · intro today st files hne
    simp [uploadFiles, hne, insertAll, foldl_insert_length]

/-- Witness for `upload_row_count`: a two-file flash request and a one-file
baseline request on a store holding one row already. -/
theorem upload_row_count_witness :
    (uploadFilesFlash "2024-01-01".data (fun _ => some "x".data) none true
        { nextId := 2, rows := [{ entryId := 1, entry := sampleFlashEntry }] }
        (some ["a".data, "b".data])).2.rows.length = 1 + 2 ∧
    (uploadFiles "2024-01-01".data none
        { nextId := 1, rows := [] } (some ["a".data])).2.rows.length = 0 + 1 :=
  ⟨(upload_row_count.1 "2024-01-01".data (fun _ => some "x".data)
      { nextId := 2, rows := [{ entryId := 1, entry := sampleFlashEntry }] }
      ["a".data, "b".data] [sampleFlashEntry, sampleFlashEntry] rfl rfl).2,
   (upload_row_count.2 "2024-01-01".data { nextId := 1, rows := [] } ["a".data] rfl).2⟩

/-- C5: for every upload request whose file list is absent, empty, or made
only of empty filenames, both endpoints respond 400 and the store is
unchanged. -/
theorem upload_empty_rejected :
    (∀ today insertFailAt st,
      uploadFiles today insertFailAt st none =
        ({ status := 400, body := errBody "No files uploaded".data }, st)) ∧
    (∀ today insertFailAt st files,
      (files.isEmpty || files.all fun f => f.isEmpty) = true →
      uploadFiles today insertFailAt st (some files) =
        ({ status := 400, body := errBody "No valid files uploaded".data }, st)) ∧
    (∀ today gemini insertFailAt publishOk st,
      uploadFilesFlash today gemini insertFailAt publishOk st none =
        ({ status := 400, body := errBody "No files uploaded".data }, st)) ∧
    (∀ today gemini insertFailAt publishOk st files,
      (files.isEmpty || files.all fun f => f.isEmpty) = true →
      uploadFilesFlash today gemini insertFailAt publishOk st (some files) =
        ({ status := 400, body := errBody "No valid files uploaded".data }, st)) := by
  refine ⟨fun _ _ _ => rfl, ?_, fun _ _ _ _ _ => rfl, ?_⟩
  · intro today insertFailAt st files h
    simp [uploadFiles, h]
  · intro today gemini insertFailAt publishOk st files h
    simp [uploadFilesFlash, h]

/-- Witness for `upload_empty_rejected`: a request whose only filenames are
empty, on each endpoint, and absent file lists. -/
theorem upload_empty_rejected_witness :
    uploadFiles "2024-01-01".data none { nextId := 1, rows := [] } (some [[], []]) =
      ({ status := 400, body := errBody "No valid files uploaded".data },
       { nextId := 1, rows := [] }) ∧
    uploadFilesFlash "2024-01-01".data (fun _ => none) none true
        { nextId := 1, rows := [] } (some [[]]) =
      ({ status := 400, body := errBody "No valid files uploaded".data },
       { nextId := 1, rows := [] }) :=
  ⟨upload_empty_rejected.2.1 "2024-01-01".data none { nextId := 1, rows := [] } [[], []] rfl,
   upload_empty_rejected.2.2.2 "2024-01-01".data (fun _ => none) none true
     { nextId := 1, rows := [] } [[]] rfl⟩

lemma applyUpdate_of_not_mem (u : UpdateRecord) :
    ∀ rows : List Row, (∀ r ∈ rows, r.entryId ≠ u.entryId) → applyUpdate rows u = rows := by
  intro rows h
  induction rows with
  | nil => rfl
  | cons r rs ih =>
    have hr : r.entryId ≠ u.entryId := h r (by simp)
    have hrs := ih fun x hx => h x (by simp [hx])
    simp only [applyUpdate, List.map_cons] at hrs ⊢
    rw [if_neg hr, hrs]

lemma row_ids_applyUpdate (u : UpdateRecord) :
    ∀ rows : List Row,
      ((applyUpdate rows u).map fun r => r.entryId) = rows.map fun r => r.entryId := by
  intro rows
  induction rows with
  | nil => rfl
  | cons r rs ih =>
    simp only [applyUpdate, List.map_cons] at ih ⊢
    rw [ih]
    by_cases hr : r.entryId = u.entryId <;> simp [hr]

lemma row_ids_foldl_applyUpdate (us : List UpdateRecord) :
    ∀ rows : List Row,
      ((us.foldl applyUpdate rows).map fun r => r.entryId) = rows.map fun r => r.entryId := by
  induction us with
  | nil => intro rows; rfl
  | cons u us ih => intro rows; rw [List.foldl_cons, ih, row_ids_applyUpdate]

lemma not_mem_of_ids_eq {uid : ℤ} {rows1 rows2 : List Row}
    (hids : (rows1.map fun r => r.entryId) = rows2.map fun r => r.entryId)
    (h : ∀ r ∈ rows2, r.entryId ≠ uid) : ∀ r ∈ rows1, r.entryId ≠ uid := by
  intro r hr
  have hmem : r.entryId ∈ rows1.map fun r => r.entryId := List.mem_map_of_mem _ hr
  rw [hids] at hmem
  obtain ⟨r2, hr2, he⟩ := List.mem_map.mp hmem
  rw [← he]
  exact h r2 hr2

/-- C6: for every bulk-update request and store, an update record whose id
matches no existing row is a silent no-op: running the request equals
running it with that record removed — so the remaining records are still
applied, the store is unchanged by that record — and the handler responds
200 without raising. -/
theorem update_unmatched_id_noop :
    ∀ (st : Store) (pre post : List UpdateRecord) (u : UpdateRecord),
      (∀ r ∈ st.rows, r.entryId ≠ u.entryId) →
      updateData none st (some (pre ++ u :: post)) =
        updateData none st (some (pre ++ post)) ∧
      (updateData none st (some (pre ++ u :: post))).1.status = 200 := by
  intro st pre post u h
  have hmid : ∀ r ∈ pre.foldl applyUpdate st.rows, r.entryId ≠ u.entryId :=
    not_mem_of_ids_eq (row_ids_foldl_applyUpdate pre st.rows) h
  have hfold : (pre ++ u :: post).foldl applyUpdate st.rows =
      (pre ++ post).foldl applyUpdate st.rows := by
    rw [List.foldl_append, List.foldl_append, List.foldl_cons,
        applyUpdate_of_not_mem u _ hmid]
  exact ⟨by simp only [updateData, hfold], rfl⟩

/-- A store holding one committed row, with id 1. -/
def sampleStore : Store :=
  { nextId := 2, rows := [{ entryId := 1, entry := sampleFlashEntry }] }

/-- An update record addressing id 7 (absent from `sampleStore`);
`mkRat 999 10` is `99.9`. -/
def sampleUpdate : UpdateRecord :=
  { entryId := 7, date := "2024-01-01".data, particulars := JValue.str "Pen".data,
    voucherBillNo := JValue.str "B1".data, receiptsQuantity := 1, receiptsAmount := 1,
    issuedQuantity := 0, issuedAmount := 0, balanceQuantity := 1,
    balanceAmount := mkRat 999 10 }

/-- Witness for `update_unmatched_id_noop`: updating absent id 7 on
`sampleStore`. -/
theorem update_unmatched_id_noop_witness :
    updateData none sampleStore (some [sampleUpdate]) =
      updateData none sampleStore (some []) ∧
    (updateData none sampleStore (some [sampleUpdate])).1.status = 200 :=
  update_unmatched_id_noop sampleStore [] [] sampleUpdate
    (by intro r hr; simp [sampleStore] at hr; rw [hr]; decide)

/-- C7: the listing endpoint returns all committed rows ordered ascending by
`Entry_ID` (every adjacent pair non-decreasing, and the output a permutation
of the stored rows), and an empty store yields an empty sequence with 200,
not an error. -/
theorem results_listing :
    (∀ st : Store, getResults true st = (200, some (sortRows st.rows))) ∧
    (∀ st : Store, (sortRows st.rows).Chain' rowLE) ∧
    (∀ st : Store, List.Perm (sortRows st.rows) st.rows) ∧
    (∀ st : Store, st.rows = [] → getResults true st = (200, some [])) := by
  refine ⟨fun st => rfl, fun st => (List.sorted_insertionSort rowLE st.rows).chain',
         fun st => List.perm_insertionSort rowLE st.rows,
         fun st h => by simp [getResults, sortRows, h]⟩

/-- Witness for `results_listing` at the empty store. -/
theorem results_listing_witness :
    getResults true { nextId := 1, rows := [] } = (200, some []) :=
  results_listing.2.2.2 { nextId := 1, rows := [] } rfl

/-- C8: in a multi-file upload-and-publish request whose rows were inserted
and committed, a failing spreadsheet publish step leaves every inserted row
in the store: the response reports the failure (500) while the final store
is exactly the committed one — the old rows followed by one new row per
file, none rolled back.  (A file's extraction failure cannot strand inserted
rows, because app.py builds all entries before the first INSERT.) -/
theorem flash_no_rollback_on_publish_failure :
    ∀ today gemini (st : Store) files entries,
      (files.isEmpty || files.all fun f => f.isEmpty) = false →
      buildEntriesFlash today gemini 0 files = some entries →
      (uploadFilesFlash today gemini none false st (some files)).1 =
        { status := 500, body := Body.exceptionText } ∧
      (uploadFilesFlash today gemini none false st (some files)).2 =
        entries.foldl Store.insert st ∧
      ∃ extra : List Row,
        (uploadFilesFlash today gemini none false st (some files)).2.rows =
          st.rows ++ extra ∧ extra.length = files.length := by
  intro today gemini st files entries hne hentries
  have hred : uploadFilesFlash today gemini none false st (some files) =
      ({ status := 500, body := Body.exceptionText }, entries.foldl Store.insert st) := by
    simp [uploadFilesFlash, hne, hentries, insertAll]
  obtain ⟨extra, hrows, hlen⟩ := foldl_insert_rows_append entries st
  refine ⟨by rw [hred], by rw [hred], extra, by rw [hred]; exact hrows, ?_⟩
  rw [hlen, buildEntriesFlash_length today gemini files 0 entries hentries]

/-- Witness for `flash_no_rollback_on_publish_failure`: one file inserted
into `sampleStore`, then the publish step fails. -/
theorem flash_no_rollback_witness :
    (uploadFilesFlash "2024-01-01".data (fun _ => some "x".data) none false
      sampleStore (some ["a".data])).2 =
      [sampleFlashEntry].foldl Store.insert sampleStore :=
  (flash_no_rollback_on_publish_failure "2024-01-01".data (fun _ => some "x".data)
    sampleStore ["a".data] [sampleFlashEntry] rfl rfl).2.1

/-- C9: calling the sheet-fetch endpoint without the `spreadsheet_id` query
parameter yields status 400 with body `{"error": "Missing spreadsheet_id"}`
and makes no call to the spreadsheet backend, whatever that backend would
have answered. -/
theorem sheet_data_missing_id :
    ∀ backend, getSheetData backend none =
      ({ status := 400, body := errBody "Missing spreadsheet_id".data }, false) :=
  fun _ => rfl

/-- C10: the bulk-update handler commits exactly once, after all UPDATE
statements: if the `k`-th statement fails, the whole request leaves the
store unchanged and answers 500; if none fails, all updates are applied in
order and committed with a 200. -/
theorem update_commit_once :
    (∀ (st : Store) updates k, k < updates.length →
      updateData (some k) st (some updates) =
        ({ status := 500, body := Body.exceptionText }, st)) ∧
    (∀ (st : Store) updates k, updates.length ≤ k →
      updateData (some k) st (some updates) =
        ({ status := 200, body := msgBody "Data updated".data },
         { st with rows := updates.foldl applyUpdate st.rows })) := by
  constructor
  · intro st updates k hk
    simp [updateData, hk]
  · intro st updates k hk
    simp [updateData, Nat.not_lt.mpr hk]

/-- Witness for `update_commit_once`: the first statement of a one-record
request fails, and the store is observably unchanged. -/
theorem update_commit_once_witness :
    updateData (some 0) sampleStore (some [sampleUpdate]) =
      ({ status := 500, body := Body.exceptionText }, sampleStore) :=
  update_commit_once.1 sampleStore [sampleUpdate] 0 (by decide)

end Govigyan
